import Mathlib

/-!
Verification of the notification-system email pipeline.

Shallow embedding of the email service of darionnuel/notification-system:
the circuit breaker (app/core/async_circuit_breaker.py and
app/core/circuit_breaker.py, which share one transition logic), the retry
helper (app/utils/retry.py), the inline retry loops and orchestration of
EmailService.process_notification (app/services/email_service.py), the user
data extraction helpers (app/services/user_client.py) and the provider
selection of SMTPService.send_email (app/services/smtp_service.py).

Time is modelled as integer seconds (the code uses time.time());
remote calls are modelled by their outcome (an Except value per attempt).
-/

namespace NotifSystem

/-! ## Circuit breaker (async_circuit_breaker.py / circuit_breaker.py) -/

inductive CircuitState where
  | closed
  | opened
  | halfOpen
deriving DecidableEq

structure CircuitBreaker where
  failureThreshold : Nat
  timeout : Int
  failureCount : Nat
  lastFailureTime : Option Int
  state : CircuitState
deriving DecidableEq

/-- `_should_attempt_reset`: enough time passed since the last failure. -/
def CircuitBreaker.shouldAttemptReset (cb : CircuitBreaker) (now : Int) : Bool :=
  match cb.lastFailureTime with
  | none => false
  | some t => decide (cb.timeout ≤ now - t)

/-- `_time_until_reset`: seconds until a reset attempt is allowed. -/
def CircuitBreaker.timeUntilReset (cb : CircuitBreaker) (now : Int) : Int :=
  match cb.lastFailureTime with
  | none => 0
  | some t => max 0 (cb.timeout - (now - t))

/-- `_on_success`: reset the failure count and close the circuit. -/
def CircuitBreaker.onSuccess (cb : CircuitBreaker) : CircuitBreaker :=
  { cb with failureCount := 0, state := .closed }

/-- `_on_failure`: count the failure, stamp its time, and open the circuit
once the count reaches the threshold. -/
def CircuitBreaker.onFailure (cb : CircuitBreaker) (now : Int) : CircuitBreaker :=
  { cb with
      failureCount := cb.failureCount + 1
      lastFailureTime := some now
      state := if cb.failureThreshold ≤ cb.failureCount + 1 then .opened else cb.state }

/-- Error surfaced by a breaker-guarded call: either the fast-fail denial
(with the remaining cooldown) or the wrapped operation's own failure. -/
inductive BreakerError (ε : Type) where
  | circuitOpen (timeLeft : Int)
  | opFailure (e : ε)
deriving DecidableEq

instance exceptDecEq {ε α : Type} [DecidableEq ε] [DecidableEq α] :
    DecidableEq (Except ε α) := fun x y =>
  match x, y with
  | .ok a, .ok b => if h : a = b then isTrue (by rw [h]) else isFalse (by simp [h])
  | .error a, .error b => if h : a = b then isTrue (by rw [h]) else isFalse (by simp [h])
  | .ok _, .error _ => isFalse (by simp)
  | .error _, .ok _ => isFalse (by simp)

/-- Result of one breaker-guarded call: the outcome, the breaker afterwards,
and whether the wrapped operation was actually invoked. -/
structure CallResult (ε α : Type) where
  outcome : Except (BreakerError ε) α
  breaker : CircuitBreaker
  invoked : Bool
deriving DecidableEq

/-- Run the wrapped operation (the body shared by the CLOSED and HALF_OPEN
paths of `call`). `op` is the outcome the operation would produce now. -/
def CircuitBreaker.runOp (cb : CircuitBreaker) (now : Int) (op : Except ε α) :
    CallResult ε α :=
  match op with
  | .ok a => ⟨.ok a, cb.onSuccess, true⟩
  | .error e => ⟨.error (.opFailure e), cb.onFailure now, true⟩

/-- `call`: an OPEN breaker either transitions to HALF_OPEN (timeout elapsed)
and runs the operation, or denies fast with the remaining wait; any other
state runs the operation. -/
def CircuitBreaker.call (cb : CircuitBreaker) (now : Int) (op : Except ε α) :
    CallResult ε α :=
  match cb.state with
  | .opened =>
    if cb.shouldAttemptReset now then
      ({ cb with state := .halfOpen }).runOp now op
    else
      ⟨.error (.circuitOpen (cb.timeUntilReset now)), cb, false⟩
  | _ => cb.runOp now op

/-- Fold a sequence of failing calls (each given by its time and the error the
wrapped operation would raise) through the breaker. -/
def CircuitBreaker.failCalls (cb : CircuitBreaker) : List (Int × ε) → CircuitBreaker
  | [] => cb
  | (now, e) :: rest =>
    ((cb.call now (Except.error (e) : Except ε Unit)).breaker).failCalls rest

lemma call_denied {ε α : Type} (cb : CircuitBreaker) (now : Int) (op : Except ε α)
    (t : Int) (hstate : cb.state = .opened) (hlast : cb.lastFailureTime = some t)
    (hwait : now - t < cb.timeout) :
    cb.call now op = ⟨.error (.circuitOpen (cb.timeout - (now - t))), cb, false⟩ := by
  have hres : cb.shouldAttemptReset now = false := by
    unfold CircuitBreaker.shouldAttemptReset
    rw [hlast]
    simp only [decide_eq_false_iff_not, not_le]
    omega
  have hleft : cb.timeUntilReset now = cb.timeout - (now - t) := by
    unfold CircuitBreaker.timeUntilReset
    rw [hlast]
    show max 0 (cb.timeout - (now - t)) = cb.timeout - (now - t)
    omega
  unfold CircuitBreaker.call
  rw [hstate, hres, hleft]
  simp

/-- `call` never changes the failure threshold of the breaker. -/
lemma call_threshold {ε α : Type} (cb : CircuitBreaker) (now : Int) (op : Except ε α) :
    ((cb.call now op).breaker).failureThreshold = cb.failureThreshold := by
  unfold CircuitBreaker.call CircuitBreaker.runOp CircuitBreaker.onSuccess
    CircuitBreaker.onFailure
  rcases h : cb.state <;> rcases op <;> simp <;> split <;> rfl

/-- A failing call preserves the invariant "OPEN with the failure count at or
beyond the threshold". -/
lemma failCall_preserves_opened {ε : Type} (cb : CircuitBreaker) (now : Int) (e : ε)
    (hstate : cb.state = .opened) (hfc : cb.failureThreshold ≤ cb.failureCount) :
    ((cb.call now (Except.error e : Except ε Unit)).breaker).state = .opened ∧
      cb.failureThreshold ≤ ((cb.call now (Except.error e : Except ε Unit)).breaker).failureCount := by
  unfold CircuitBreaker.call
  rw [hstate]
  by_cases h : cb.shouldAttemptReset now = true
  · rw [if_pos h]
    unfold CircuitBreaker.runOp CircuitBreaker.onFailure
    refine ⟨?_, ?_⟩
    · show (if cb.failureThreshold ≤ cb.failureCount + 1 then CircuitState.opened
        else CircuitState.halfOpen) = CircuitState.opened
      rw [if_pos (by omega)]
    · show cb.failureThreshold ≤ cb.failureCount + 1
      omega
  · rw [if_neg h]
    exact ⟨hstate, hfc⟩

/-- From CLOSED below threshold (or already OPEN at threshold), enough further
failing calls leave the breaker OPEN with the count at or beyond threshold. -/
lemma failCalls_open {ε : Type} (th : Nat) (events : List (Int × ε)) :
    ∀ cb : CircuitBreaker, cb.failureThreshold = th →
      ((cb.state = .closed ∧ cb.failureCount < th) ∨
        (cb.state = .opened ∧ th ≤ cb.failureCount)) →
      th ≤ cb.failureCount + events.length →
      (cb.failCalls events).state = .opened ∧
        th ≤ (cb.failCalls events).failureCount := by
  induction events with
  | nil =>
    intro cb hth hQ hlen
    simp only [CircuitBreaker.failCalls]
    rcases hQ with ⟨_, hlt⟩ | ⟨hs, hge⟩
    · simp only [List.length_nil] at hlen; omega
    · exact ⟨hs, hge⟩
  | cons p rest ih =>
    intro cb hth hQ hlen
    obtain ⟨now, e⟩ := p
    simp only [CircuitBreaker.failCalls]
    have hth2 : ((cb.call now (Except.error e : Except ε Unit)).breaker).failureThreshold
        = th := by rw [call_threshold, hth]
    rcases hQ with ⟨hs, hlt⟩ | ⟨hs, hge⟩
    · -- CLOSED: the operation runs and fails
      have hcall : (cb.call now (Except.error e : Except ε Unit)).breaker
          = cb.onFailure now := by
        unfold CircuitBreaker.call
        rw [hs]
        rfl
      rw [hcall]
      apply ih
      · unfold CircuitBreaker.onFailure
        rw [hth]
      · unfold CircuitBreaker.onFailure
        by_cases hcase : th ≤ cb.failureCount + 1
        · right
          refine ⟨?_, ?_⟩
          · show (if cb.failureThreshold ≤ cb.failureCount + 1 then CircuitState.opened
              else cb.state) = CircuitState.opened
            rw [if_pos (by omega)]
          · show th ≤ cb.failureCount + 1
            omega
        · left
          refine ⟨?_, ?_⟩
          · show (if cb.failureThreshold ≤ cb.failureCount + 1 then CircuitState.opened
              else cb.state) = CircuitState.closed
            rw [if_neg (by omega), hs]
          · show cb.failureCount + 1 < th
            omega
      · unfold CircuitBreaker.onFailure
        simp only [List.length_cons] at hlen ⊢
        show th ≤ cb.failureCount + 1 + rest.length
        omega
    · -- OPEN at/above threshold: stays so
      have hpres := failCall_preserves_opened cb now e hs (hth ▸ hge)
      apply ih
      · exact hth2
      · right; exact ⟨hpres.1, hth ▸ hpres.2⟩
      · simp only [List.length_cons] at hlen
        omega

/-- C2: after at least `failure_threshold` consecutive failing calls a breaker
reaches OPEN; and while OPEN with the recovery timeout not yet elapsed since
the last failure, a call raises a circuit-open error carrying the remaining
wait time, returns the breaker unchanged and never invokes the operation. -/
theorem breaker_opens_then_fails_fast {ε α : Type}
    (cb : CircuitBreaker) (events : List (Int × ε))
    (hclosed : cb.state = .closed) (hzero : cb.failureCount = 0)
    (hpos : 1 ≤ cb.failureThreshold) (hlen : cb.failureThreshold ≤ events.length)
    (cb2 : CircuitBreaker) (now t : Int) (op : Except ε α)
    (hopened : cb2.state = .opened) (hlast : cb2.lastFailureTime = some t)
    (hwait : now - t < cb2.timeout) :
    (cb.failCalls events).state = .opened ∧
      cb2.call now op = ⟨.error (.circuitOpen (cb2.timeout - (now - t))), cb2, false⟩ := by
  refine ⟨?_, call_denied cb2 now op t hopened hlast hwait⟩
  exact (failCalls_open cb.failureThreshold events cb rfl
    (.inl ⟨hclosed, by omega⟩) (by omega)).1

/-- Witness for C2 at a threshold-1 breaker and a still-cooling OPEN breaker. -/
theorem breaker_opens_then_fails_fast_witness :
    ((⟨1, 30, 0, none, .closed⟩ : CircuitBreaker).failCalls
        [((0 : Int), "boom")]).state = .opened ∧
      (⟨1, 30, 1, some 0, .opened⟩ : CircuitBreaker).call 10
          (Except.ok () : Except String Unit) =
        ⟨.error (.circuitOpen ((30 : Int) - (10 - 0))),
          ⟨1, 30, 1, some 0, .opened⟩, false⟩ :=
  breaker_opens_then_fails_fast ⟨1, 30, 0, none, .closed⟩ [((0 : Int), "boom")]
    rfl rfl (by decide) (by decide)
    ⟨1, 30, 1, some 0, .opened⟩ 10 0 (Except.ok ()) rfl rfl (by decide)

/-- C5: an OPEN breaker whose recovery timeout has elapsed lets exactly one
trial through (the operation is invoked, `invoked = true`): a successful trial
closes the breaker and resets the failure count to 0; a failing trial reopens
the breaker and stamps `last_failure_time` with the failure time. -/
theorem breaker_half_open_trial {ε α : Type} (cb : CircuitBreaker) (now t : Int)
    (hopened : cb.state = .opened) (hlast : cb.lastFailureTime = some t)
    (helapsed : cb.timeout ≤ now - t) (hfc : cb.failureThreshold ≤ cb.failureCount) :
    (∀ a : α, cb.call now (Except.ok a : Except ε α) =
      ⟨.ok a, { cb with failureCount := 0, state := .closed }, true⟩) ∧
    (∀ e : ε, cb.call now (Except.error e : Except ε α) =
      ⟨.error (.opFailure e),
        { cb with failureCount := cb.failureCount + 1, lastFailureTime := some now, state := .opened },
        true⟩) := by
  have hres : cb.shouldAttemptReset now = true := by
    unfold CircuitBreaker.shouldAttemptReset
    rw [hlast]
    simp only [decide_eq_true_eq]
    omega
  constructor
  · intro a
    unfold CircuitBreaker.call
    rw [hopened, if_pos hres]
    rfl
  · intro e
    unfold CircuitBreaker.call
    rw [hopened, if_pos hres]
    unfold CircuitBreaker.runOp CircuitBreaker.onFailure
    have hcond : (if cb.failureThreshold ≤ cb.failureCount + 1 then CircuitState.opened
        else CircuitState.halfOpen) = CircuitState.opened := if_pos (by omega)
    simp only
    rw [hcond]

/-- Witness for C5: one recovered trial and one failing trial on a concrete
OPEN breaker past its timeout. -/
theorem breaker_half_open_trial_witness :
    (⟨3, 30, 3, some 100, .opened⟩ : CircuitBreaker).call 200
        (Except.ok () : Except String Unit) =
      ⟨.ok (), ⟨3, 30, 0, some 100, .closed⟩, true⟩ ∧
    (⟨3, 30, 3, some 100, .opened⟩ : CircuitBreaker).call 200
        (Except.error "boom" : Except String Unit) =
      ⟨.error (.opFailure "boom"), ⟨3, 30, 4, some 200, .opened⟩, true⟩ :=
  ⟨(breaker_half_open_trial ⟨3, 30, 3, some 100, .opened⟩ 200 100
      rfl rfl (by decide) (by decide)).1 (),
    (breaker_half_open_trial ⟨3, 30, 3, some 100, .opened⟩ 200 100
      rfl rfl (by decide) (by decide)).2 "boom"⟩

/-! ## Retry executor (app/utils/retry.py) -/

/-- Trace of one `retry_with_backoff` execution: the returned value or raised
error (`Except.error none` models raising the initial `last_exception = None`),
the number of operation invocations, and the slept backoff delays in order. -/
structure RetryTrace (ε α : Type) where
  result : Except (Option ε) α
  attemptsUsed : Nat
  delays : List Nat
deriving DecidableEq

/-- The retry loop of `retry_with_backoff`: `k` is the attempt index, the
second argument is the number of loop iterations still remaining after the
current one (`max_attempts - 1 - k`), mirroring `for attempt in range(...)`
with a sleep of `(2 ** attempt) * backoff_base` on every non-final failure
and a re-raise of the last error after the final one. -/
def retryLoop (op : Nat → Except ε α) (base : Nat) :
    Nat → Nat → Option ε → RetryTrace ε α
  | _, 0, last => ⟨.error last, 0, []⟩
  | k, 1, _ =>
    match op k with
    | .ok a => ⟨.ok a, 1, []⟩
    | .error e => ⟨.error (some e), 1, []⟩
  | k, r + 2, _ =>
    match op k with
    | .ok a => ⟨.ok a, 1, []⟩
    | .error e =>
      let rest := retryLoop op base (k + 1) (r + 1) (some e)
      ⟨rest.result, rest.attemptsUsed + 1, (2 ^ k * base) :: rest.delays⟩

/-- `settings.retry_max_attempts` (app/core/config.py). -/
def retryMaxAttemptsSetting : Nat := 3

/-- `settings.retry_backoff_seconds` (app/core/config.py). -/
def retryBackoffSecondsSetting : Nat := 2

/-- Python `x or default` on an optional integer argument: `None` and `0` are
falsy and fall back to the configured default. -/
def orSetting (x : Option Nat) (dflt : Nat) : Nat :=
  match x with
  | none => dflt
  | some n => if n = 0 then dflt else n

/-- `retry_with_backoff(func, max_attempts=..., backoff_base=...)`; the
synchronous `retry_sync_with_backoff` has the identical control flow. -/
def retry_with_backoff (op : Nat → Except ε α)
    (maxAttempts backoffBase : Option Nat) : RetryTrace ε α :=
  retryLoop op (orSetting backoffBase retryBackoffSecondsSetting) 0
    (orSetting maxAttempts retryMaxAttemptsSetting) none

/-- Behaviour of the retry loop on a persistently failing operation, for any
start index: all remaining attempts run, each non-final failure sleeps
`2 ^ attempt * base`, and the last error is re-raised unchanged. -/
lemma retryLoop_persistent_fail {ε α : Type} (es : Nat → ε) (base : Nat) :
    ∀ m k last, 1 ≤ m →
      retryLoop (fun i => (Except.error (es i) : Except ε α)) base k m last =
        ⟨.error (some (es (k + m - 1))), m,
          (List.range (m - 1)).map (fun j => 2 ^ (k + j) * base)⟩ := by
  intro m
  induction m with
  | zero => intro k last h; omega
  | succ m ih =>
    cases m with
    | zero => intro k last _; simp [retryLoop]
    | succ m =>
      intro k last _
      have hrec := ih (k + 1) (some (es k)) (by omega)
      simp only [retryLoop, hrec]
      simp only [RetryTrace.mk.injEq]
      refine ⟨?_, trivial, ?_⟩
      · have harg : k + 1 + (m + 1) - 1 = k + (m + 1 + 1) - 1 := by omega
        rw [harg]
      · have hm1 : m + 1 + 1 - 1 = m + 1 := by omega
        have hm2 : m + 1 - 1 = m := by omega
        rw [hm1, hm2, List.range_succ_eq_map]
        simp only [List.map_cons, List.map_map]
        congr 1
        apply List.map_congr_left
        intro j hj
        simp only [Function.comp_apply]
        congr 2
        omega

/-- C3: for `max_attempts = N ≥ 1` and `backoff_base = b ≥ 1`, a persistently
failing operation is invoked exactly N times, the delay slept before attempt k
(0-indexed, k ≥ 1) is `2^(k-1) * b` seconds with none before the first
attempt (delays `[b, 2b, 4b, ...]`, N-1 of them), and after the N-th failure
the last observed error is re-raised unchanged. -/
theorem retry_exhausts_reraises_last {ε α : Type} (es : Nat → ε) (N b : Nat)
    (hN : 1 ≤ N) (hb : 1 ≤ b) :
    retry_with_backoff (fun i => (Except.error (es i) : Except ε α))
        (some N) (some b) =
      ⟨.error (some (es (N - 1))), N,
        (List.range (N - 1)).map (fun k => 2 ^ k * b)⟩ := by
  have hN0 : orSetting (some N) retryMaxAttemptsSetting = N := by
    show (if N = 0 then retryMaxAttemptsSetting else N) = N
    rw [if_neg (by omega)]
  have hb0 : orSetting (some b) retryBackoffSecondsSetting = b := by
    show (if b = 0 then retryBackoffSecondsSetting else b) = b
    rw [if_neg (by omega)]
  unfold retry_with_backoff
  rw [hN0, hb0, retryLoop_persistent_fail es b N 0 none hN]
  simp

/-- Witness for C3: three attempts at base 2 sleep 2 s then 4 s and re-raise
the error of the third attempt. -/
theorem retry_exhausts_reraises_last_witness :
    retry_with_backoff (fun i => (Except.error i : Except Nat Unit))
        (some 3) (some 2) =
      ⟨.error (some 2), 3, [2, 4]⟩ := by
  rw [retry_exhausts_reraises_last (fun i => i) 3 2 (by decide) (by decide)]
  decide

/-! ## Inline retry loop around a breaker-guarded call
(EmailService.process_notification lines 60-78: `for attempt in range(3)`
around `user_client.get_user_by_id`, which calls through an
AsyncCircuitBreaker; the loop catches every `Exception`, including the
breaker's OPEN denial, and sleeps `(2 ** attempt) * 2` between attempts). -/

/-- Trace of the inline retry loop wrapping a breaker-guarded call. -/
structure BreakerRetryTrace (ε α : Type) where
  result : Except (BreakerError ε) α
  breaker : CircuitBreaker
  opInvocations : Nat
  loopAttempts : Nat
  delays : List Nat
deriving DecidableEq

/-- One invocation counted iff the breaker actually ran the operation. -/
def invokedCount {ε α : Type} (c : CallResult ε α) : Nat :=
  if c.invoked then 1 else 0

/-- The inline loop: attempt index `k`, remaining further iterations `r`
(`r = 2 - k` for a 3-attempt loop); every caught error on a non-final
attempt sleeps `(2 ** attempt) * 2` seconds and retries the breaker call. -/
def breakerRetryLoop {ε α : Type} (times : Nat → Int) (op : Nat → Except ε α) :
    CircuitBreaker → Nat → Nat → BreakerRetryTrace ε α
  | cb, k, 0 =>
    let c := cb.call (times k) (op k)
    match c.outcome with
    | .ok a => ⟨.ok a, c.breaker, invokedCount c, 1, []⟩
    | .error e => ⟨.error e, c.breaker, invokedCount c, 1, []⟩
  | cb, k, r + 1 =>
    let c := cb.call (times k) (op k)
    match c.outcome with
    | .ok a => ⟨.ok a, c.breaker, invokedCount c, 1, []⟩
    | .error _ =>
      let rest := breakerRetryLoop times op c.breaker (k + 1) r
      ⟨rest.result, rest.breaker, invokedCount c + rest.opInvocations,
        rest.loopAttempts + 1, (2 ^ k * 2) :: rest.delays⟩

/-- The user-fetch retry loop of `process_notification`: 3 attempts starting
at attempt index 0. -/
def userFetchRetry {ε α : Type} (cb : CircuitBreaker) (times : Nat → Int)
    (op : Nat → Except ε α) : BreakerRetryTrace ε α :=
  breakerRetryLoop times op cb 0 2

/-- Attempt times of the C4 scenario: first attempt at 100, then after the
2 s and 4 s sleeps. -/
def timesC4 : Nat → Int
  | 0 => 100
  | 1 => 102
  | _ => 106

/-- Breaker of the C4 scenario: OPEN since t=100 with a 30 s timeout. -/
def breakerC4 : CircuitBreaker := ⟨3, 30, 3, some 100, .opened⟩

/-- Counterexample to C4: with the breaker OPEN and denying every attempt,
the retry loop does NOT abort on the first denial — it performs all 3 loop
attempts and sleeps the backoff delays 2 s and 4 s (while the wrapped
operation is indeed never invoked). -/
theorem retry_not_aborted_by_open_breaker :
    (userFetchRetry breakerC4 timesC4
        (fun _ => (Except.ok () : Except String Unit))).loopAttempts = 3 ∧
    (userFetchRetry breakerC4 timesC4
        (fun _ => (Except.ok () : Except String Unit))).delays = [2, 4] ∧
    (userFetchRetry breakerC4 timesC4
        (fun _ => (Except.ok () : Except String Unit))).opInvocations = 0 := by
  decide

/-- C4 amended: while the breaker stays OPEN (its recovery timeout not
elapsed at any of the three attempt times), the loop never invokes the
wrapped operation, but it still runs all 3 attempts with backoff delays 2 s
and 4 s, leaves the breaker unchanged, and only then propagates the final
circuit-open denial. -/
theorem open_breaker_denies_all_retry_attempts {ε α : Type}
    (cb : CircuitBreaker) (times : Nat → Int) (op : Nat → Except ε α) (t : Int)
    (hopened : cb.state = .opened) (hlast : cb.lastFailureTime = some t)
    (h0 : times 0 - t < cb.timeout) (h1 : times 1 - t < cb.timeout)
    (h2 : times 2 - t < cb.timeout) :
    userFetchRetry cb times op =
      ⟨.error (.circuitOpen (cb.timeout - (times 2 - t))), cb, 0, 3, [2, 4]⟩ := by
  unfold userFetchRetry
  show breakerRetryLoop times op cb 0 2 = _
  rw [breakerRetryLoop, call_denied cb (times 0) (op 0) t hopened hlast h0]
  simp only [invokedCount]
  rw [breakerRetryLoop, call_denied cb (times 1) (op 1) t hopened hlast h1]
  simp only [invokedCount]
  rw [breakerRetryLoop, call_denied cb (times 2) (op 2) t hopened hlast h2]
  simp [invokedCount]

/-- Witness for the amended C4 at the concrete scenario. -/
theorem open_breaker_denies_all_retry_attempts_witness :
    userFetchRetry breakerC4 timesC4 (fun _ => (Except.ok () : Except String Unit)) =
      ⟨.error (.circuitOpen ((30 : Int) - (106 - 100))), breakerC4, 0, 3, [2, 4]⟩ := by
  have h := open_breaker_denies_all_retry_attempts breakerC4 timesC4
    (fun _ => (Except.ok () : Except String Unit)) 100 rfl rfl
    (by decide) (by decide) (by decide)
  simpa using h

/-! ## User data extraction (app/services/user_client.py) -/

/-- User payload returned by the User Service (`data` of `GET /users/id`);
`prefEmailEnabled` and `prefLanguage` model `preferences.email_enabled` and
`preferences.language` (`none` = key absent, as for an absent dict). -/
structure UserData where
  email : Option String
  name : Option String
  first_name : Option String
  last_name : Option String
  prefEmailEnabled : Option Bool
  prefLanguage : Option String
deriving DecidableEq

/-- `extract_user_email`. -/
def extract_user_email (u : UserData) : Option String := u.email

/-- `extract_user_name`: full name if truthy, else first+last fallbacks,
else the "User" placeholder (Python truthiness: the empty string and a
missing key are falsy). -/
def extract_user_name (u : UserData) : String :=
  let name := u.name.getD ""
  if name ≠ "" then name
  else
    let first := u.first_name.getD ""
    let last := u.last_name.getD ""
    if first ≠ "" ∧ last ≠ "" then first ++ " " ++ last
    else if first ≠ "" then first
    else if last ≠ "" then last
    else "User"

/-- `extract_user_language`: `preferences.get("language", "en")`. -/
def extract_user_language (u : UserData) : String :=
  u.prefLanguage.getD "en"

/-- `check_email_preference`: a second `get_user_by_id` call; on success read
`preferences.get("email_enabled", True)`, on any failure default to True
(fail open). `fetch` is the outcome of that call. -/
def check_email_preference (fetch : Except String UserData) : Bool :=
  match fetch with
  | .ok u => u.prefEmailEnabled.getD true
  | .error _ => true

lemma append_space_ne_empty (a b : String) : a ++ " " ++ b ≠ "" := by
  intro h
  have hlen := congrArg String.length h
  simp only [String.length_append] at hlen
  have hsp : " ".length = 1 := rfl
  have hem : "".length = 0 := rfl
  omega

/-- C10: `extract_user_name` is total, never returns the empty string, and
follows the fallback chain name → "first last" → first → last → "User". -/
theorem extract_user_name_total_fallback (u : UserData) :
    extract_user_name u ≠ "" ∧
    (∀ n, u.name = some n → n ≠ "" → extract_user_name u = n) ∧
    (u.name.getD "" = "" → u.first_name.getD "" ≠ "" → u.last_name.getD "" ≠ "" →
      extract_user_name u = u.first_name.getD "" ++ " " ++ u.last_name.getD "") ∧
    (u.name.getD "" = "" → u.first_name.getD "" ≠ "" → u.last_name.getD "" = "" →
      extract_user_name u = u.first_name.getD "") ∧
    (u.name.getD "" = "" → u.first_name.getD "" = "" → u.last_name.getD "" ≠ "" →
      extract_user_name u = u.last_name.getD "") ∧
    (u.name.getD "" = "" → u.first_name.getD "" = "" → u.last_name.getD "" = "" →
      extract_user_name u = "User") := by
  have hname : ∀ n, u.name = some n → u.name.getD "" = n := by
    intro n hsome
    rw [hsome]
    rfl
  simp only [extract_user_name]
  split_ifs with h1 h2 h3 h4
  · -- name is truthy
    refine ⟨h1, ?_, ?_, ?_, ?_, ?_⟩
    · intro n hsome _
      exact hname n hsome
    all_goals exact fun hn0 => absurd hn0 h1
  · -- name falsy, both first and last truthy
    have hn0 : u.name.getD "" = "" := not_not.mp h1
    refine ⟨append_space_ne_empty _ _, ?_, ?_, ?_, ?_, ?_⟩
    · intro n hsome hne
      exact absurd (hname n hsome ▸ hn0) hne
    · intro _ _ _
      rfl
    · intro _ _ hl0
      exact absurd hl0 h2.2
    · intro _ hf0 _
      exact absurd hf0 h2.1
    · intro _ hf0 _
      exact absurd hf0 h2.1
  · -- name falsy, first truthy, last falsy
    have hn0 : u.name.getD "" = "" := not_not.mp h1
    have hl0 : u.last_name.getD "" = "" := by
      by_contra hx
      exact h2 ⟨h3, hx⟩
    refine ⟨h3, ?_, ?_, ?_, ?_, ?_⟩
    · intro n hsome hne
      exact absurd (hname n hsome ▸ hn0) hne
    · intro _ _ hl1
      exact absurd hl0 hl1
    · intro _ _ _
      rfl
    · intro _ hf0 _
      exact absurd hf0 h3
    · intro _ hf0 _
      exact absurd hf0 h3
  · -- name falsy, first falsy, last truthy
    have hn0 : u.name.getD "" = "" := not_not.mp h1
    have hf0 : u.first_name.getD "" = "" := not_not.mp h3
    refine ⟨h4, ?_, ?_, ?_, ?_, ?_⟩
    · intro n hsome hne
      exact absurd (hname n hsome ▸ hn0) hne
    · intro _ hf1 _
      exact absurd hf0 hf1
    · intro _ hf1 _
      exact absurd hf0 hf1
    · intro _ _ _
      rfl
    · intro _ _ hl0
      exact absurd hl0 h4
  · -- everything falsy: placeholder
    have hn0 : u.name.getD "" = "" := not_not.mp h1
    have hf0 : u.first_name.getD "" = "" := not_not.mp h3
    have hl0 : u.last_name.getD "" = "" := not_not.mp h4
    refine ⟨by decide, ?_, ?_, ?_, ?_, ?_⟩
    · intro n hsome hne
      exact absurd (hname n hsome ▸ hn0) hne
    · intro _ hf1 _
      exact absurd hf0 hf1
    · intro _ hf1 _
      exact absurd hf0 hf1
    · intro _ _ hl1
      exact absurd hl0 hl1
    · intro _ _ _
      rfl

/-- Witness for C10: a user with a truthy full name. -/
theorem extract_user_name_total_fallback_witness :
    extract_user_name ⟨some "ada@example.com", some "Ada", none, none, none, none⟩
      = "Ada" :=
  (extract_user_name_total_fallback
    ⟨some "ada@example.com", some "Ada", none, none, none, none⟩).2.1
    "Ada" rfl (by decide)

/-! ## Email log records and status updates
(app/models/email_log.py, EmailService._update_email_status) -/

inductive EmailStatus where
  | pending
  | sending
  | sent
  | delivered
  | failed
  | bounced
deriving DecidableEq

/-- Result dictionary returned by `smtp_service.send_email`. -/
structure SendResult where
  provider : String
  message : String
  message_id : Option String
deriving DecidableEq

/-- Contents of `EmailLog.extra_metadata`: either the JSON blob serialized at
record creation (language plus sender overrides) or the provider result dict
stored by `_update_email_status`. -/
inductive ExtraMeta where
  | creationJson (language : String) (from_email from_name reply_to : Option String)
      (cc bcc : Option (List String)) (provider : Option String)
  | sendResultMeta (r : SendResult)
deriving DecidableEq

/-- The `email_logs` row (fields touched by the pipeline). -/
structure EmailLog where
  notification_id : String
  request_id : String
  correlation_id : Option String
  user_id : String
  template_code : String
  recipient_email : String
  recipient_name : String
  subject : Option String
  body_html : Option String
  status : EmailStatus
  priority : Nat
  created_at : Nat
  sent_at : Option Nat
  delivered_at : Option Nat
  failed_at : Option Nat
  error_message : Option String
  retry_count : Nat
  provider : Option String
  extra_metadata : Option ExtraMeta
deriving DecidableEq

/-- Python truthiness of an optional string argument (`None` and the empty
string are falsy). -/
def strTruthy (o : Option String) : Bool :=
  match o with
  | none => false
  | some s => !(s == "")

/-- `EmailService._update_email_status(email_log, status, error_message,
provider, metadata)`: sets the status, conditionally stores the error and
bumps `retry_count`, conditionally stores provider and metadata, and stamps
the transition timestamp for SENDING / SENT / FAILED. `now` models
`datetime.utcnow()`. -/
def updateEmailStatus (log : EmailLog) (status : EmailStatus)
    (error_message : Option String) (provider : Option String)
    (metadata : Option SendResult) (now : Nat) : EmailLog :=
  let l1 : EmailLog := { log with status := status }
  let l2 : EmailLog :=
    if strTruthy error_message then
      { l1 with error_message := error_message, retry_count := l1.retry_count + 1 }
    else l1
  let l3 : EmailLog :=
    if strTruthy provider then { l2 with provider := provider } else l2
  let l4 : EmailLog :=
    match metadata with
    | some m => { l3 with extra_metadata := some (.sendResultMeta m) }
    | none => l3
  if status = .sending then { l4 with sent_at := some now }
  else if status = .sent then { l4 with delivered_at := some now }
  else if status = .failed then { l4 with failed_at := some now }
  else l4

/-- C9: `_update_email_status` sets exactly the fields implied by its
arguments: always the status; `sent_at` when SENDING, `delivered_at` when
SENT, `failed_at` when FAILED; `error_message` and `retry_count` exactly when
a truthy error message is supplied; `provider` and `extra_metadata` only when
supplied; and every other field — identity, recipient, content, creation
time — is left unchanged. -/
theorem update_email_status_frame (log : EmailLog) (status : EmailStatus)
    (em pv : Option String) (md : Option SendResult) (now : Nat) :
    (updateEmailStatus log status em pv md now).notification_id = log.notification_id ∧
    (updateEmailStatus log status em pv md now).request_id = log.request_id ∧
    (updateEmailStatus log status em pv md now).correlation_id = log.correlation_id ∧
    (updateEmailStatus log status em pv md now).user_id = log.user_id ∧
    (updateEmailStatus log status em pv md now).template_code = log.template_code ∧
    (updateEmailStatus log status em pv md now).recipient_email = log.recipient_email ∧
    (updateEmailStatus log status em pv md now).recipient_name = log.recipient_name ∧
    (updateEmailStatus log status em pv md now).subject = log.subject ∧
    (updateEmailStatus log status em pv md now).body_html = log.body_html ∧
    (updateEmailStatus log status em pv md now).priority = log.priority ∧
    (updateEmailStatus log status em pv md now).created_at = log.created_at ∧
    (updateEmailStatus log status em pv md now).status = status ∧
    (updateEmailStatus log status em pv md now).sent_at =
      (if status = .sending then some now else log.sent_at) ∧
    (updateEmailStatus log status em pv md now).delivered_at =
      (if status = .sent then some now else log.delivered_at) ∧
    (updateEmailStatus log status em pv md now).failed_at =
      (if status = .failed then some now else log.failed_at) ∧
    (updateEmailStatus log status em pv md now).error_message =
      (if strTruthy em then em else log.error_message) ∧
    (updateEmailStatus log status em pv md now).retry_count =
      (if strTruthy em then log.retry_count + 1 else log.retry_count) ∧
    (updateEmailStatus log status em pv md now).provider =
      (if strTruthy pv then pv else log.provider) ∧
    (updateEmailStatus log status em pv md now).extra_metadata =
      (match md with
        | some m => some (ExtraMeta.sendResultMeta m)
        | none => log.extra_metadata) := by
  cases status <;> cases md <;>
    by_cases hem : strTruthy em = true <;> by_cases hpv : strTruthy pv = true <;>
      simp [updateEmailStatus, hem, hpv]

/-! ## The orchestrator (EmailService.process_notification) -/

/-- Sender overrides carried in `request.metadata`. -/
structure RequestMetadata where
  from_email : Option String
  from_name : Option String
  reply_to : Option String
  cc : Option (List String)
  bcc : Option (List String)
  provider : Option String
deriving DecidableEq

/-- `metadata.get(...)` on an absent metadata dict: everything `None`. -/
def RequestMetadata.empty : RequestMetadata := ⟨none, none, none, none, none, none⟩

/-- `EmailNotificationRequest` (app/schemas/email.py), the queue payload. -/
structure EmailNotificationRequest where
  notification_id : String
  user_id : String
  template_code : String
  template_variables : List (String × String)
  request_id : String
  priority : Nat
  metadata : Option RequestMetadata
deriving DecidableEq

/-- `correlation_id or get_correlation_id()`: a truthy explicit id wins,
otherwise the ambient/generated one (`fresh`). -/
def effectiveCorrelation (corrId : Option String) (fresh : String) : String :=
  match corrId with
  | some c => if c = "" then fresh else c
  | none => fresh

/-- Outcomes of the remote collaborators for one run, indexed by attempt
where the caller retries: `user_fetch` is `user_client.get_user_by_id`,
`prefFetch` the second fetch inside `check_email_preference`,
`templateRender` is `template_client.render_email_template`, and
`providerSend` is `smtp_service.send_email`. -/
structure PipelineEnv where
  userFetch : Nat → Except String UserData
  prefFetch : Except String UserData
  templateRender : Nat → Except String (String × String)
  providerSend : Nat → Except String SendResult

/-- The manual `for attempt in range(3)` loops of `process_notification` and
`_send_email` have exactly the control flow of `retryLoop` with backoff base
2 (`wait_time = (2 ** attempt) * 2`) and three attempts. -/
def inlineRetry3 {α : Type} (op : Nat → Except String α) : RetryTrace String α :=
  retryLoop op 2 0 3 none

/-- Record created when the user has email notifications disabled
(process_notification lines 90-108): FAILED without a dispatch attempt. -/
def disabledLog (req : EmailNotificationRequest) (remail rname corr : String)
    (now : Nat) : EmailLog :=
  { notification_id := req.notification_id
    request_id := req.request_id
    correlation_id := some corr
    user_id := req.user_id
    template_code := req.template_code
    recipient_email := remail
    recipient_name := rname
    subject := none
    body_html := none
    status := .failed
    priority := req.priority
    created_at := now
    sent_at := none
    delivered_at := none
    failed_at := none
    error_message := some "User has email notifications disabled"
    retry_count := 0
    provider := none
    extra_metadata := none }

/-- Record created on admission (process_notification lines 131-147):
PENDING, with the creation-time metadata JSON. -/
def pendingLog (req : EmailNotificationRequest) (remail rname language corr : String)
    (md : RequestMetadata) (now : Nat) : EmailLog :=
  { notification_id := req.notification_id
    request_id := req.request_id
    correlation_id := some corr
    user_id := req.user_id
    template_code := req.template_code
    recipient_email := remail
    recipient_name := rname
    subject := none
    body_html := none
    status := .pending
    priority := req.priority
    created_at := now
    sent_at := none
    delivered_at := none
    failed_at := none
    error_message := none
    retry_count := 0
    provider := none
    extra_metadata := some (.creationJson language md.from_email md.from_name
      md.reply_to md.cc md.bcc md.provider) }

/-- Result of `_send_email`: the record as mutated so far, the status events
published, the number of `smtp_service.send_email` invocations, the slept
delays, and the exception it raised, if any. -/
structure SendEmailOutcome where
  log : EmailLog
  published : List (String × String)
  providerCalls : Nat
  delays : List Nat
  failure : Option String
deriving DecidableEq

/-- `EmailService._send_email`: set SENDING (stamping `sent_at`), publish a
SENDING event, fetch+render the template with the manual retry loop, store
subject and body, send with the manual retry loop, then set SENT (with
provider and result metadata) and publish a SENT event; any failure is
raised to the caller. (`e.getD ""` models `str(e)`; the loop errors are
always `some _` since three attempts run.) -/
def sendEmail (env : PipelineEnv) (req : EmailNotificationRequest)
    (log : EmailLog) (now : Nat) : SendEmailOutcome :=
  let log1 := updateEmailStatus log .sending none none none now
  let pub1 := [(req.notification_id, "SENDING")]
  let tr := inlineRetry3 env.templateRender
  match tr.result with
  | .error e => ⟨log1, pub1, 0, tr.delays, some (e.getD "")⟩
  | .ok sb =>
    let log2 : EmailLog := { log1 with subject := some sb.1, body_html := some sb.2 }
    let sr := inlineRetry3 env.providerSend
    match sr.result with
    | .error e => ⟨log2, pub1, sr.attemptsUsed, tr.delays ++ sr.delays, some (e.getD "")⟩
    | .ok result =>
      let log3 := updateEmailStatus log2 .sent none (some result.provider)
        (some result) now
      ⟨log3, pub1 ++ [(req.notification_id, "SENT")], sr.attemptsUsed,
        tr.delays ++ sr.delays, none⟩

/-- One `process_notification` run: the returned record or propagated
exception, the record store afterwards, the number of provider dispatch
invocations, the published status events, and the slept delays. -/
structure ProcessOutcome where
  result : Except String EmailLog
  db : List EmailLog
  providerCalls : Nat
  published : List (String × String)
  delays : List Nat
deriving DecidableEq

/-- `EmailService.process_notification`: duplicate check, user fetch with the
manual retry loop (its final failure is wrapped in a ValueError message),
recipient extraction, preference check (disabled → FAILED record, done),
record creation at PENDING, `_send_email`, and on its failure a FAILED
status update with the exception message. -/
def process_notification (env : PipelineEnv) (req : EmailNotificationRequest)
    (db : List EmailLog) (corrId : Option String) (fresh : String) (now : Nat) :
    ProcessOutcome :=
  match db.find? (fun l => l.request_id == req.request_id) with
  | some existing => ⟨.ok existing, db, 0, [], []⟩
  | none =>
    let uf := inlineRetry3 env.userFetch
    match uf.result with
    | .error e =>
      ⟨.error ("Failed to fetch user " ++ req.user_id ++ ": " ++ e.getD ""),
        db, 0, [], uf.delays⟩
    | .ok user_data =>
      let recipient_email := extract_user_email user_data
      let recipient_name := extract_user_name user_data
      let language := extract_user_language user_data
      if recipient_email.getD "" = "" then
        ⟨.error ("User " ++ req.user_id ++ " has no email address"),
          db, 0, [], uf.delays⟩
      else
        let remail := recipient_email.getD ""
        if check_email_preference env.prefFetch = false then
          let log := disabledLog req remail recipient_name
            (effectiveCorrelation corrId fresh) now
          ⟨.ok log, db ++ [log], 0, [], uf.delays⟩
        else
          let md := req.metadata.getD RequestMetadata.empty
          let log0 := pendingLog req remail recipient_name language
            (effectiveCorrelation corrId fresh) md now
          let s := sendEmail env req log0 now
          match s.failure with
          | some e =>
            let logF := updateEmailStatus s.log .failed (some e) none none now
            ⟨.ok logF, db ++ [logF], s.providerCalls, s.published,
              uf.delays ++ s.delays⟩
          | none =>
            ⟨.ok s.log, db ++ [s.log], s.providerCalls, s.published,
              uf.delays ++ s.delays⟩

/-- C1: a request whose `request_id` already has a persisted record returns
that record unchanged, creates no second record, performs no provider
dispatch, publishes nothing and sleeps nothing. -/
theorem duplicate_request_short_circuits
    (env : PipelineEnv) (req : EmailNotificationRequest) (db : List EmailLog)
    (corrId : Option String) (fresh : String) (now : Nat) (ex : EmailLog)
    (hdup : db.find? (fun l => l.request_id == req.request_id) = some ex) :
    process_notification env req db corrId fresh now = ⟨.ok ex, db, 0, [], []⟩ := by
  unfold process_notification
  rw [hdup]

/-- Remote collaborators all unavailable (C1 witness environment). -/
def envUnavailable : PipelineEnv :=
  ⟨fun _ => .error "service unavailable", .error "service unavailable",
    fun _ => .error "service unavailable", fun _ => .error "service unavailable"⟩

/-- A redelivered request with the already-persisted `request_id` r1. -/
def reqDup : EmailNotificationRequest :=
  ⟨"n1", "u1", "welcome", [("name", "Ana")], "r1", 1, none⟩

/-- The record persisted by the first delivery of r1. -/
def existingLog : EmailLog :=
  ⟨"n0", "r1", some "c0", "u1", "welcome", "ana@example.com", "Ana",
    none, none, .sent, 1, 0, none, none, none, none, 0, none, none⟩

/-- Witness for C1 at the concrete duplicate. -/
theorem duplicate_request_short_circuits_witness :
    process_notification envUnavailable reqDup [existingLog] none "cid" 5 =
      ⟨.ok existingLog, [existingLog], 0, [], []⟩ :=
  duplicate_request_short_circuits envUnavailable reqDup [existingLog] none
    "cid" 5 existingLog (by decide)

/-- C7: a resolved user with `email_enabled: false` makes processing end with
a FAILED record whose error message says email notifications are disabled,
with no provider dispatch, no published event, and no retry
(`retry_count = 0`, nothing further attempted). -/
theorem disabled_preference_fails_without_dispatch
    (env : PipelineEnv) (req : EmailNotificationRequest) (db : List EmailLog)
    (corrId : Option String) (fresh : String) (now : Nat)
    (u : UserData) (em : String)
    (hnodup : db.find? (fun l => l.request_id == req.request_id) = none)
    (huser : (inlineRetry3 env.userFetch).result = .ok u)
    (hemail : u.email = some em) (hem : em ≠ "")
    (hpref : check_email_preference env.prefFetch = false) :
    ∃ log : EmailLog,
      process_notification env req db corrId fresh now =
        ⟨.ok log, db ++ [log], 0, [], (inlineRetry3 env.userFetch).delays⟩ ∧
      log.status = .failed ∧
      log.error_message = some "User has email notifications disabled" ∧
      log.retry_count = 0 := by
  refine ⟨disabledLog req em (extract_user_name u)
    (effectiveCorrelation corrId fresh) now, ?_, rfl, rfl, rfl⟩
  simp only [process_notification, hnodup, huser, extract_user_email, hemail,
    Option.getD_some]
  rw [if_neg hem]
  simp only [hpref, if_pos]

/-- User whose preferences disable email notifications. -/
def userAnaDisabled : UserData :=
  ⟨some "ana@example.com", some "Ana", none, none, some false, some "en"⟩

/-- Environment resolving that user (C7 witness). -/
def envPrefDisabled : PipelineEnv :=
  ⟨fun _ => .ok userAnaDisabled, .ok userAnaDisabled,
    fun _ => .error "never reached", fun _ => .error "never reached"⟩

/-- The r7 request of the preference-denied scenario. -/
def reqPref : EmailNotificationRequest :=
  ⟨"n7", "u1", "welcome", [("name", "Ana")], "r7", 1, none⟩

/-- Witness for C7 at the concrete preference-denied scenario. -/
theorem disabled_preference_fails_without_dispatch_witness :
    ∃ log : EmailLog,
      process_notification envPrefDisabled reqPref [] none "c" 3 =
        ⟨.ok log, [] ++ [log], 0, [],
          (inlineRetry3 envPrefDisabled.userFetch).delays⟩ ∧
      log.status = .failed ∧
      log.error_message = some "User has email notifications disabled" ∧
      log.retry_count = 0 :=
  disabled_preference_fails_without_dispatch envPrefDisabled reqPref [] none
    "c" 3 userAnaDisabled "ana@example.com" rfl rfl rfl (by decide) rfl

/-- A non-duplicate request for user u6. -/
def reqNoDup : EmailNotificationRequest :=
  ⟨"n6", "u6", "welcome", [], "r6", 1, none⟩

/-- Environment in which every user fetch fails. -/
def envUserDown : PipelineEnv :=
  ⟨fun _ => .error "connection refused", .error "connection refused",
    fun _ => .error "connection refused", fun _ => .error "connection refused"⟩

/-- Counterexample to C6: an unrecovered exception during recipient
resolution (step 2) does NOT leave a FAILED record — the exception
propagates before the record is created, so the store still has no record
for the request at all. -/
theorem user_fetch_failure_leaves_no_record :
    (process_notification envUserDown reqNoDup [] none "c" 0).db = [] ∧
    (process_notification envUserDown reqNoDup [] none "c" 0).result =
      .error "Failed to fetch user u6: connection refused" := by
  decide

/-- The manual 3-attempt loop on a persistently failing operation: three
invocations, delays 2 s and 4 s, and the third error is what survives. -/
lemma inlineRetry3_persistent_fail {α : Type} (es : Nat → String) :
    inlineRetry3 (fun i => (Except.error (es i) : Except String α)) =
      ⟨.error (some (es 2)), 3, [2, 4]⟩ := by
  unfold inlineRetry3
  rw [retryLoop_persistent_fail es 2 3 0 none (by omega)]
  simp only [RetryTrace.mk.injEq]
  refine ⟨by norm_num, trivial, by decide⟩

/-- C6 amended: for a non-duplicate request, an unrecovered exception at
template fetch/render (step 4) or provider dispatch (step 5) leaves the
record FAILED with the exception message as `error_message` and nothing
published after the SENDING event; but an unrecovered exception during
recipient resolution (step 2) propagates out before any record is created,
leaving no record and touching nothing. -/
theorem unrecovered_exception_terminal_failure :
    (∀ (env : PipelineEnv) (req : EmailNotificationRequest) (db : List EmailLog)
        (corrId : Option String) (fresh : String) (now : Nat) (es : Nat → String),
      db.find? (fun l => l.request_id == req.request_id) = none →
      env.userFetch = (fun i => Except.error (es i)) →
      process_notification env req db corrId fresh now =
        ⟨.error ("Failed to fetch user " ++ req.user_id ++ ": " ++ es 2),
          db, 0, [], [2, 4]⟩) ∧
    (∀ (env : PipelineEnv) (req : EmailNotificationRequest) (db : List EmailLog)
        (corrId : Option String) (fresh : String) (now : Nat)
        (u : UserData) (em e : String),
      db.find? (fun l => l.request_id == req.request_id) = none →
      (inlineRetry3 env.userFetch).result = .ok u →
      u.email = some em → em ≠ "" →
      check_email_preference env.prefFetch = true →
      (inlineRetry3 env.templateRender).result = .error (some e) → e ≠ "" →
      ∃ log : EmailLog,
        process_notification env req db corrId fresh now =
          ⟨.ok log, db ++ [log], 0, [(req.notification_id, "SENDING")],
            (inlineRetry3 env.userFetch).delays ++
              (inlineRetry3 env.templateRender).delays⟩ ∧
        log.status = .failed ∧ log.error_message = some e ∧
        log.failed_at = some now) ∧
    (∀ (env : PipelineEnv) (req : EmailNotificationRequest) (db : List EmailLog)
        (corrId : Option String) (fresh : String) (now : Nat)
        (u : UserData) (em : String) (sb : String × String) (e : String),
      db.find? (fun l => l.request_id == req.request_id) = none →
      (inlineRetry3 env.userFetch).result = .ok u →
      u.email = some em → em ≠ "" →
      check_email_preference env.prefFetch = true →
      (inlineRetry3 env.templateRender).result = .ok sb →
      (inlineRetry3 env.providerSend).result = .error (some e) → e ≠ "" →
      ∃ log : EmailLog,
        process_notification env req db corrId fresh now =
          ⟨.ok log, db ++ [log], (inlineRetry3 env.providerSend).attemptsUsed,
            [(req.notification_id, "SENDING")],
            (inlineRetry3 env.userFetch).delays ++
              ((inlineRetry3 env.templateRender).delays ++
                (inlineRetry3 env.providerSend).delays)⟩ ∧
        log.status = .failed ∧ log.error_message = some e ∧
        log.failed_at = some now) := by
  refine ⟨?_, ?_, ?_⟩
  · intro env req db corrId fresh now es hnodup henv
    have huf : inlineRetry3 env.userFetch = ⟨.error (some (es 2)), 3, [2, 4]⟩ := by
      rw [henv]
      exact inlineRetry3_persistent_fail es
    simp only [process_notification, hnodup, huf, Option.getD_some]
  · intro env req db corrId fresh now u em e hnodup huser hemail hem hpref htmpl he
    refine ⟨updateEmailStatus (updateEmailStatus (pendingLog req em
      (extract_user_name u) (extract_user_language u)
      (effectiveCorrelation corrId fresh) (req.metadata.getD RequestMetadata.empty)
      now) .sending none none none now) .failed (some e) none none now,
      ?_, ?_, ?_, ?_⟩
    · simp only [process_notification, sendEmail, hnodup, huser,
        extract_user_email, hemail, Option.getD_some, htmpl]
      rw [if_neg hem]
      simp only [hpref]
      simp
    · simp [updateEmailStatus, strTruthy, he]
    · simp [updateEmailStatus, strTruthy, he]
    · simp [updateEmailStatus, strTruthy, he]
  · intro env req db corrId fresh now u em sb e hnodup huser hemail hem hpref
      htmpl hsend he
    refine ⟨updateEmailStatus { (updateEmailStatus (pendingLog req em
      (extract_user_name u) (extract_user_language u)
      (effectiveCorrelation corrId fresh) (req.metadata.getD RequestMetadata.empty)
      now) .sending none none none now) with
        subject := some sb.1, body_html := some sb.2 }
      .failed (some e) none none now, ?_, ?_, ?_, ?_⟩
    · simp only [process_notification, sendEmail, hnodup, huser,
        extract_user_email, hemail, Option.getD_some, htmpl, hsend]
      rw [if_neg hem]
      simp only [hpref]
      simp
    · simp [updateEmailStatus, strTruthy, he]
    · simp [updateEmailStatus, strTruthy, he]
    · simp [updateEmailStatus, strTruthy, he]

/-- Witness for the amended C6, at the step-2 part (concrete user-fetch
failure: error propagated, store untouched). -/
theorem unrecovered_exception_terminal_failure_witness :
    process_notification envUserDown reqNoDup [] none "c" 0 =
      ⟨.error ("Failed to fetch user " ++ reqNoDup.user_id ++
        ": " ++ "connection refused"), [], 0, [], [2, 4]⟩ :=
  unrecovered_exception_terminal_failure.1 envUserDown reqNoDup [] none "c" 0
    (fun _ => "connection refused") rfl rfl

/-! ## Provider selection (app/services/smtp_service.py) -/

/-- The settings consumed by `SMTPService.send_email`. -/
structure EmailSettings where
  email_provider : String
  sendgrid_api_key : Option String
deriving DecidableEq

/-- Result dict of a successful `send_via_smtp`. -/
def smtpSendResult : SendResult :=
  ⟨"smtp", "Email sent successfully via SMTP", none⟩

/-- Result dict of a successful `send_via_sendgrid` (`mid` the X-Message-Id
response header). -/
def sendgridSendResult (mid : Option String) : SendResult :=
  ⟨"sendgrid", "Email sent successfully via SendGrid", mid⟩

/-- The two per-provider breakers owned by the `SMTPService` instance. -/
structure SMTPService where
  smtp_circuit_breaker : CircuitBreaker
  sendgrid_circuit_breaker : CircuitBreaker
deriving DecidableEq

/-- `send_via_smtp`: the SMTP transport behind the SMTP breaker.
`transport` is the outcome the SMTP send would produce. -/
def send_via_smtp (breaker : CircuitBreaker) (now : Int)
    (transport : Except String Unit) : CallResult String SendResult :=
  breaker.call now (transport.map (fun _ => smtpSendResult))

/-- `send_via_sendgrid`: the SendGrid transport behind the SendGrid breaker. -/
def send_via_sendgrid (breaker : CircuitBreaker) (now : Int)
    (transport : Except String (Option String)) : CallResult String SendResult :=
  breaker.call now (transport.map sendgridSendResult)

/-- `provider or settings.email_provider`: a truthy override wins. -/
def selectedProviderName (override : Option String) (cfg : EmailSettings) : String :=
  match override with
  | some p => if p = "" then cfg.email_provider else p
  | none => cfg.email_provider

/-- `SMTPService.send_email`: route to SendGrid only when the selected
provider is "sendgrid" AND an API key is configured; in every other case
route to SMTP. -/
def send_email (svc : SMTPService) (cfg : EmailSettings) (now : Int)
    (smtpTransport : Except String Unit)
    (sendgridTransport : Except String (Option String))
    (override : Option String) : CallResult String SendResult × SMTPService :=
  let selected := selectedProviderName override cfg
  if selected = "sendgrid" ∧ strTruthy cfg.sendgrid_api_key then
    let r := send_via_sendgrid svc.sendgrid_circuit_breaker now sendgridTransport
    (r, { svc with sendgrid_circuit_breaker := r.breaker })
  else
    let r := send_via_smtp svc.smtp_circuit_breaker now smtpTransport
    (r, { svc with smtp_circuit_breaker := r.breaker })

/-- Fresh closed breakers for the C8 scenario. -/
def svcFresh : SMTPService :=
  ⟨⟨5, 60, 0, none, .closed⟩, ⟨5, 60, 0, none, .closed⟩⟩

/-- Counterexample to C8: with the default configuration (`email_provider =
"smtp"`, no SendGrid API key), an explicit per-request override "sendgrid"
does NOT win — the send goes through the SMTP transport and reports provider
"smtp". -/
theorem sendgrid_override_ignored_without_key :
    (send_email svcFresh ⟨"smtp", none⟩ 0 (.ok ()) (.ok none)
        (some "sendgrid")).1.outcome = .ok smtpSendResult ∧
    smtpSendResult.provider = "smtp" ∧ "smtp" ≠ "sendgrid" := by
  decide

/-- C8 amended: a truthy per-request override (else the configured default)
selects the provider, but SendGrid is actually used only when that selection
is "sendgrid" and a SendGrid API key is configured; in every other case the
SMTP transport is used. Stated for both transports succeeding with both
breakers closed. -/
theorem provider_selection_requires_key (svc : SMTPService) (cfg : EmailSettings)
    (now : Int) (mid : Option String) (override : Option String)
    (hsmtp : svc.smtp_circuit_breaker.state = .closed)
    (hsg : svc.sendgrid_circuit_breaker.state = .closed) :
    (send_email svc cfg now (.ok ()) (.ok mid) override).1.outcome =
      (if selectedProviderName override cfg = "sendgrid" ∧
          strTruthy cfg.sendgrid_api_key
        then .ok (sendgridSendResult mid)
        else .ok smtpSendResult) ∧
    (send_email svc cfg now (.ok ()) (.ok mid) override).1.invoked = true := by
  unfold send_email
  by_cases h : selectedProviderName override cfg = "sendgrid" ∧
      strTruthy cfg.sendgrid_api_key
  · rw [if_pos h, if_pos h]
    unfold send_via_sendgrid CircuitBreaker.call
    rw [hsg]
    exact ⟨rfl, rfl⟩
  · rw [if_neg h, if_neg h]
    unfold send_via_smtp CircuitBreaker.call
    rw [hsmtp]
    exact ⟨rfl, rfl⟩

/-- Witness for the amended C8: override "sendgrid" with a configured key
routes to SendGrid. -/
theorem provider_selection_requires_key_witness :
    (send_email svcFresh ⟨"smtp", some "SG.key"⟩ 0 (.ok ()) (.ok (some "m1"))
        (some "sendgrid")).1.outcome =
      (if selectedProviderName (some "sendgrid") ⟨"smtp", some "SG.key"⟩ =
          "sendgrid" ∧ strTruthy (⟨"smtp", some "SG.key"⟩ : EmailSettings).sendgrid_api_key
        then .ok (sendgridSendResult (some "m1"))
        else .ok smtpSendResult) ∧
    (send_email svcFresh ⟨"smtp", some "SG.key"⟩ 0 (.ok ()) (.ok (some "m1"))
        (some "sendgrid")).1.invoked = true :=
  provider_selection_requires_key svcFresh ⟨"smtp", some "SG.key"⟩ 0
    (some "m1") (some "sendgrid") rfl rfl

end NotifSystem
